import Mathlib

/-!
Shallow embedding of the `lp50xx-async` driver crate: the variant constants
(`src/hl/mod.rs`, trait `LP50xx` and its six impls), the I2C transport
adapter (`src/ll/i2c.rs`), and the high-level typestate driver operations
(`src/hl/mod.rs`, `impl Driver`).

Bus behaviour is modelled as the list of I2C transactions a call issues; the
external I2C master is modelled as infallible (its error type is opaque and
merely passed through by the code), except where a theorem explicitly
quantifies over the success of a transition.
-/

namespace LP50xx

/-- An I2C bus transaction as issued to the external `embedded_hal_async::i2c::I2c`
master: either a plain write of bytes, or a combined write-then-read
(`write_read`) of some bytes followed by a read of `readLen` bytes. -/
inductive Transaction where
  | write (addr : Nat) (bytes : List Nat)
  | writeRead (addr : Nat) (writeBytes : List Nat) (readLen : Nat)
deriving DecidableEq

/-- Per-variant constants of the `LP50xx` trait (`src/hl/mod.rs`).
Defaulted fields mirror the trait's default associated constants:
`RGB_COUNT = LED_COUNT / 3` and `OUT_START_ADDRESS = LED_START_ADDRESS + RGB_COUNT`. -/
structure Variant where
  LED_COUNT : Nat
  RGB_COUNT : Nat := LED_COUNT / 3
  I2C_ADDRESS_BASE : Nat
  I2C_ADDRESS_BROADCAST : Nat
  LED_START_ADDRESS : Nat
  OUT_START_ADDRESS : Nat := LED_START_ADDRESS + RGB_COUNT
deriving DecidableEq

/-- Constants of `impl LP50xx for LP5009` in `src/hl/mod.rs`. -/
def LP5009 : Variant :=
  { LED_COUNT := 9,
    I2C_ADDRESS_BASE := 0b01100000,
    I2C_ADDRESS_BROADCAST := 0b00111000,
    LED_START_ADDRESS := 0x07,
    OUT_START_ADDRESS := 0x0b }

/-- Constants of `impl LP50xx for LP5012` in `src/hl/mod.rs` (`OUT_START_ADDRESS` defaulted). -/
def LP5012 : Variant :=
  { LED_COUNT := 12,
    I2C_ADDRESS_BASE := 0b01100000,
    I2C_ADDRESS_BROADCAST := 0b00111000,
    LED_START_ADDRESS := 0x07 }

/-- Constants of `impl LP50xx for LP5018` in `src/hl/mod.rs`. -/
def LP5018 : Variant :=
  { LED_COUNT := 18,
    I2C_ADDRESS_BASE := 0b01010000,
    I2C_ADDRESS_BROADCAST := 0b01111000,
    LED_START_ADDRESS := 0x07,
    OUT_START_ADDRESS := 0x0f }

/-- Constants of `impl LP50xx for LP5024` in `src/hl/mod.rs` (`OUT_START_ADDRESS` defaulted). -/
def LP5024 : Variant :=
  { LED_COUNT := 24,
    I2C_ADDRESS_BASE := 0b01010000,
    I2C_ADDRESS_BROADCAST := 0b01111000,
    LED_START_ADDRESS := 0x07 }

/-- Constants of `impl LP50xx for LP5030` in `src/hl/mod.rs`. -/
def LP5030 : Variant :=
  { LED_COUNT := 30,
    I2C_ADDRESS_BASE := 0b01100000,
    I2C_ADDRESS_BROADCAST := 0b00111000,
    LED_START_ADDRESS := 0x08,
    OUT_START_ADDRESS := 0x14 }

/-- Constants of `impl LP50xx for LP5036` in `src/hl/mod.rs` (`OUT_START_ADDRESS` defaulted). -/
def LP5036 : Variant :=
  { LED_COUNT := 36,
    I2C_ADDRESS_BASE := 0b01100000,
    I2C_ADDRESS_BROADCAST := 0b00111000,
    LED_START_ADDRESS := 0x08 }

/-- The six supported chip variants. -/
def variants : List Variant := [LP5009, LP5012, LP5018, LP5024, LP5030, LP5036]

/-- The `Address` enum of `src/hl/mod.rs`: four pin-strapping selectors plus
the broadcast address. -/
inductive Address where
  | Address0
  | Address1
  | Address2
  | Address3
  | Broadcast
deriving DecidableEq

/-- Bus-address resolution performed by `Driver::new` (`src/hl/mod.rs`, lines 134-149). -/
def resolveAddress (v : Variant) : Address → Nat
  | .Address0 => v.I2C_ADDRESS_BASE
  | .Address1 => v.I2C_ADDRESS_BASE ||| 0b010
  | .Address2 => v.I2C_ADDRESS_BASE ||| 0b100
  | .Address3 => v.I2C_ADDRESS_BASE ||| 0b110
  | .Broadcast => v.I2C_ADDRESS_BROADCAST

/-- Constant `MAX_WRITE_SIZE` in `src/ll/i2c.rs`: capacity of the adapter's write buffer. -/
def MAX_WRITE_SIZE : Nat := 13

/-- The `DeviceError<T>` enum of `src/ll/mod.rs`. `Interface` carries the
external transport's error, which the model treats as opaque. -/
inductive DeviceError where
  | Interface
  | BufferTooSmall
deriving DecidableEq

/-- Model of `heapless::Vec::push`: succeeds exactly when the vector is not yet full. -/
def vecPush (cap : Nat) (v : List Nat) (x : Nat) : Option (List Nat) :=
  if v.length < cap then some (v ++ [x]) else none

/-- Model of `heapless::Vec::extend_from_slice`: succeeds exactly when the combined
length fits the capacity; no partial copy happens on failure. -/
def vecExtendFromSlice (cap : Nat) (v : List Nat) (xs : List Nat) : Option (List Nat) :=
  if v.length + xs.length ≤ cap then some (v ++ xs) else none

/-- Model of `DeviceInterface::write_register` (`src/ll/i2c.rs`, lines 29-40): push the
register address into a capacity-13 buffer, extend with the payload (failing
with `BufferTooSmall` if it does not fit), then issue one bus write. -/
def write_register (busAddr regAddr : Nat) (data : List Nat) :
    Except DeviceError (List Transaction) :=
  match vecPush MAX_WRITE_SIZE [] regAddr with
  | none => .error .BufferTooSmall
  | some v =>
    match vecExtendFromSlice MAX_WRITE_SIZE v data with
    | none => .error .BufferTooSmall
    | some v2 => .ok [.write busAddr v2]

/-- Model of `DeviceInterface::read_register` (`src/ll/i2c.rs`, lines 42-49): a single
combined write-then-read transaction of the one address byte followed by a
read of the register's size in bytes. -/
def read_register (busAddr regAddr readLen : Nat) : List Transaction :=
  [.writeRead busAddr [regAddr] readLen]

/-- Model of `AsyncBufferInterface::write` (`src/ll/i2c.rs`, lines 59-66): delegates to
`write_register` and reports the number of bytes written. -/
def bufferWrite (busAddr regAddr : Nat) (buf : List Nat) :
    Except DeviceError (Nat × List Transaction) :=
  match write_register busAddr regAddr buf with
  | .error e => .error e
  | .ok tr => .ok (buf.length, tr)

/-- Outcome of `AsyncBufferInterface::read`. -/
inductive BufReadOutcome where
  | panicked
  | ok (count : Nat) (trace : List Transaction)
deriving DecidableEq

/-- Model of `AsyncBufferInterface::read` (`src/ll/i2c.rs`, lines 74-81): the body is
`unimplemented!()`, which panics for every input. -/
def bufferRead (_busAddr _regAddr _bufLen : Nat) : BufReadOutcome :=
  .panicked

/-- Register address of control register 0 (`DEVICE_CONFIG0`). -/
def DEVICE_CONFIG_0_ADDRESS : Nat := 0x00

/-- Register address of control register 1 (`DEVICE_CONFIG1`). -/
def DEVICE_CONFIG_1_ADDRESS : Nat := 0x01

/-- The `MaxCurrentOption` enum of the generated register map. -/
inductive MaxCurrentOption where
  | Current25MA5
  | Current35MA
deriving DecidableEq

/-- Modelled from the spec: the encoding of `MaxCurrentOption` into the
one-bit max-current field of control register 1. The register map is
generated from `src/ll/ll.yaml`, which is not present under `src/`; per the
spec's fixture `0x3C & ~(1<<2) | (1<<1)` (section 8) and the repository
tests, selecting 35mA sets the field bit and 25.5mA clears it. -/
def maxCurrentBit : MaxCurrentOption → Bool
  | .Current25MA5 => false
  | .Current35MA => true

/-- The `Config` struct of `src/hl/mod.rs`. -/
structure Config where
  log_scale : Bool
  power_save : Bool
  pwm_dithering : Bool
  max_current : MaxCurrentOption
deriving DecidableEq

/-- Write a single bit field of an 8-bit register byte: set the bit when the
value is true, clear it otherwise, leaving the other bits of the byte alone. -/
def setBit8 (b i : Nat) (val : Bool) : Nat :=
  if val then b ||| 2 ^ i else b &&& ((2 ^ 8 - 1) ^^^ 2 ^ i)

/-- Modelled from the spec: the byte written by
`device_config_0().write_async(|w| w.set_chip_en(en))`. The register map is
generated from `src/ll/ll.yaml`, which is not present under `src/`; per the
spec (section 4.3), control register 0 has the chip-enable field at bit 6 and
a single-field write writes the whole byte with the other bits at their
default of zero, giving `0x40` for enable and `0x00` for disable. -/
def deviceConfig0Byte (chip_en : Bool) : Nat :=
  setBit8 0 6 chip_en

/-- Modelled from the spec: the byte written back by `Driver::configure`'s
read-modify-write of control register 1, as a function of the byte `readByte`
just read. The register map is generated from `src/ll/ll.yaml`, which is not
present under `src/`; per the spec (sections 4.3 and 8) and the repository
tests, log-scale is bit 5, power-save bit 4, pwm-dithering bit 2 and
max-current bit 1, and the four setters are applied in the source order of
`Driver::configure` (`src/hl/mod.rs`, lines 196-207). -/
def configureWritten (config : Config) (readByte : Nat) : Nat :=
  setBit8
    (setBit8
      (setBit8
        (setBit8 readByte 5 config.log_scale)
        1 (maxCurrentBit config.max_current))
      4 config.power_save)
    2 config.pwm_dithering

/-- Public-surface outcome of a fallible high-level driver call. -/
inductive OpStatus where
  | ok
  | indexError
  | busError
  | panicked
deriving DecidableEq

/-- Result of a high-level driver call: its outcome and the complete list of
bus transactions the call issued. -/
structure OpResult where
  status : OpStatus
  trace : List Transaction
deriving DecidableEq

/-- Shared tail of the indexing operations: call the buffer-interface write
and convert `DeviceError` through `From<DeviceError<T>> for Error<T>`
(`src/hl/mod.rs`, lines 41-48), whose `BufferTooSmall` arm is
`unreachable!()`, i.e. a panic. -/
def hlWrite (busAddr regAddr : Nat) (data : List Nat) : OpResult :=
  match bufferWrite busAddr regAddr data with
  | .ok (_, tr) => ⟨.ok, tr⟩
  | .error .Interface => ⟨.busError, []⟩
  | .error .BufferTooSmall => ⟨.panicked, []⟩

/-- Model of `Driver::set_channel` (`src/hl/mod.rs`, lines 212-222). -/
def set_channel (v : Variant) (busAddr channel_i value : Nat) : OpResult :=
  if channel_i > v.LED_COUNT then ⟨.indexError, []⟩
  else hlWrite busAddr (v.OUT_START_ADDRESS + channel_i) [value]

/-- The `Rgb` struct of `src/hl/mod.rs`: three 8-bit values in red, green,
blue order. -/
structure Rgb where
  red : Nat
  green : Nat
  blue : Nat
deriving DecidableEq

/-- The byte sequence a `Rgb` dereferences to. -/
def Rgb.toBytes (c : Rgb) : List Nat := [c.red, c.green, c.blue]

/-- Model of `Driver::set_rgb` (`src/hl/mod.rs`, lines 227-242). -/
def set_rgb (v : Variant) (busAddr rgb_i : Nat) (value : Rgb) : OpResult :=
  if rgb_i > v.RGB_COUNT then ⟨.indexError, []⟩
  else hlWrite busAddr (v.OUT_START_ADDRESS + rgb_i * 3) value.toBytes

/-- Model of `Driver::set_rgb_brightness` (`src/hl/mod.rs`, lines 247-261). -/
def set_rgb_brightness (v : Variant) (busAddr rgb_i value : Nat) : OpResult :=
  if rgb_i > v.RGB_COUNT then ⟨.indexError, []⟩
  else hlWrite busAddr (v.LED_START_ADDRESS + rgb_i) [value]

/-- Model of `Driver::set_all_brightness` (`src/hl/mod.rs`, lines 264-273): fill a
capacity-36 `heapless::Vec` with `RGB_COUNT` copies of the value (the `Extend`
impl panics if the capacity is exceeded) and write it at the brightness base. -/
def set_all_brightness (v : Variant) (busAddr value : Nat) : OpResult :=
  if v.RGB_COUNT > 36 then ⟨.panicked, []⟩
  else hlWrite busAddr v.LED_START_ADDRESS (List.replicate v.RGB_COUNT value)

/-- Bus behaviour of `Driver::enable`, from (`src/hl/mod.rs`, lines 155-168): one
whole-byte write of control register 0 with chip-enable set. -/
def enableOp (busAddr : Nat) : Except DeviceError (List Transaction) :=
  write_register busAddr DEVICE_CONFIG_0_ADDRESS [deviceConfig0Byte true]

/-- Bus behaviour of `Driver::disable`, from (`src/hl/mod.rs`, lines 178-191): one
whole-byte write of control register 0 with chip-enable cleared. -/
def disableOp (busAddr : Nat) : Except DeviceError (List Transaction) :=
  write_register busAddr DEVICE_CONFIG_0_ADDRESS [deviceConfig0Byte false]

/-- Bus behaviour of `Driver::configure`, from (`src/hl/mod.rs`, lines 196-207):
`modify_async` reads the one-byte control register 1, applies the four field
setters, and writes the result back. `readByte` is the byte the device
returns for the read. -/
def configureOp (busAddr : Nat) (config : Config) (readByte : Nat) :
    Except DeviceError (List Transaction) :=
  match write_register busAddr DEVICE_CONFIG_1_ADDRESS
      [configureWritten config readByte] with
  | .ok wtr => .ok (read_register busAddr DEVICE_CONFIG_1_ADDRESS 1 ++ wtr)
  | .error e => .error e

/-- The typestate markers of `src/hl/mod.rs` (`marker::Standby`,
`marker::Normal`); these are the only two types implementing the sealed
`marker::Marker` trait. -/
inductive DriverState where
  | Standby
  | Normal
deriving DecidableEq

/-- The public operations of the typestate driver. -/
inductive DriverOp where
  | enable
  | disable
  | configure
  | setChannel
  | setRgb
  | setRgbBrightness
  | setAllBrightness
deriving DecidableEq

/-- Which operations each typestate offers, read off the three `impl` blocks
of `src/hl/mod.rs`: `enable` only in the `marker::Standby` impl (lines
134-169), `disable` only in the `marker::Normal` impl (lines 171-192), and
the remaining operations in the impl generic over any `marker::Marker`
(lines 194-274). -/
def opAllowed : DriverState → DriverOp → Bool
  | .Standby, .enable => true
  | .Normal, .enable => false
  | .Normal, .disable => true
  | .Standby, .disable => false
  | _, _ => true

/-- The state reached by running an operation in a state, when the operation
is offered there: `enable` moves Standby to Normal, `disable` moves Normal to
Standby, and every other operation (taking `&mut self`) leaves the state as
it is. -/
def nextState (s : DriverState) (op : DriverOp) : Option DriverState :=
  match s, op with
  | .Standby, .enable => some .Normal
  | .Normal, .enable => none
  | .Normal, .disable => some .Standby
  | .Standby, .disable => none
  | s, _ => some s

/-- The `Driver` handle of `src/hl/mod.rs`, indexed by its typestate. -/
structure Driver (STATE : DriverState) where
  busAddr : Nat
  variant : Variant

/-- Model of `Driver::new` (`src/hl/mod.rs`, lines 134-149): resolve the address and
produce a handle in the `Standby` state. -/
def Driver.new (v : Variant) (address : Address) : Driver .Standby :=
  ⟨resolveAddress v address, v⟩

/-- Model of `Driver::enable` as a state transition: consumes the Standby handle; when
the bus write fails, the error carries no handle at all. `busOk` models
whether the external bus transaction succeeds. -/
def Driver.enable (d : Driver .Standby) (busOk : Bool) :
    Except DeviceError (Driver .Normal) :=
  if busOk then .ok ⟨d.busAddr, d.variant⟩ else .error .Interface

/-- Model of `Driver::disable` as a state transition: consumes the Normal handle; when
the bus write fails, the error carries no handle at all. -/
def Driver.disable (d : Driver .Normal) (busOk : Bool) :
    Except DeviceError (Driver .Standby) :=
  if busOk then .ok ⟨d.busAddr, d.variant⟩ else .error .Interface

/-! ## Helper lemmas -/

theorem write_register_short (busAddr regAddr : Nat) (data : List Nat)
    (h : data.length ≤ 12) :
    write_register busAddr regAddr data = .ok [.write busAddr (regAddr :: data)] := by
  have h1 : vecPush MAX_WRITE_SIZE [] regAddr = some [regAddr] := by
    simp [vecPush, MAX_WRITE_SIZE]
  have h2 : vecExtendFromSlice MAX_WRITE_SIZE [regAddr] data = some (regAddr :: data) := by
    unfold vecExtendFromSlice MAX_WRITE_SIZE
    rw [if_pos (by simp; omega)]
    simp
  simp [write_register, h1, h2]

theorem write_register_long (busAddr regAddr : Nat) (data : List Nat)
    (h : 12 < data.length) :
    write_register busAddr regAddr data = .error .BufferTooSmall := by
  have h1 : vecPush MAX_WRITE_SIZE [] regAddr = some [regAddr] := by
    simp [vecPush, MAX_WRITE_SIZE]
  have h2 : vecExtendFromSlice MAX_WRITE_SIZE [regAddr] data = none := by
    unfold vecExtendFromSlice MAX_WRITE_SIZE
    rw [if_neg (by simp; omega)]
  simp [write_register, h1, h2]

theorem hlWrite_short (busAddr regAddr : Nat) (data : List Nat)
    (h : data.length ≤ 12) :
    hlWrite busAddr regAddr data = ⟨.ok, [.write busAddr (regAddr :: data)]⟩ := by
  simp [hlWrite, bufferWrite, write_register_short busAddr regAddr data h]

theorem set_channel_ok (v : Variant) (a i value : Nat) (h : i ≤ v.LED_COUNT) :
    set_channel v a i value = ⟨.ok, [.write a [v.OUT_START_ADDRESS + i, value]]⟩ := by
  unfold set_channel
  rw [if_neg (by omega)]
  exact hlWrite_short _ _ _ (by simp)

theorem set_channel_oob (v : Variant) (a i value : Nat) (h : v.LED_COUNT < i) :
    set_channel v a i value = ⟨.indexError, []⟩ := by
  unfold set_channel
  rw [if_pos h]

theorem set_rgb_ok (v : Variant) (a i : Nat) (c : Rgb) (h : i ≤ v.RGB_COUNT) :
    set_rgb v a i c =
      ⟨.ok, [.write a ((v.OUT_START_ADDRESS + i * 3) :: c.toBytes)]⟩ := by
  unfold set_rgb
  rw [if_neg (by omega)]
  exact hlWrite_short _ _ _ (by simp [Rgb.toBytes])

theorem set_rgb_oob (v : Variant) (a i : Nat) (c : Rgb) (h : v.RGB_COUNT < i) :
    set_rgb v a i c = ⟨.indexError, []⟩ := by
  unfold set_rgb
  rw [if_pos h]

theorem set_rgb_brightness_ok (v : Variant) (a i value : Nat) (h : i ≤ v.RGB_COUNT) :
    set_rgb_brightness v a i value =
      ⟨.ok, [.write a [v.LED_START_ADDRESS + i, value]]⟩ := by
  unfold set_rgb_brightness
  rw [if_neg (by omega)]
  exact hlWrite_short _ _ _ (by simp)

theorem set_rgb_brightness_oob (v : Variant) (a i value : Nat) (h : v.RGB_COUNT < i) :
    set_rgb_brightness v a i value = ⟨.indexError, []⟩ := by
  unfold set_rgb_brightness
  rw [if_pos h]

theorem set_all_brightness_eq (v : Variant) (a value : Nat) (h : v.RGB_COUNT ≤ 12) :
    set_all_brightness v a value =
      ⟨.ok, [.write a (v.LED_START_ADDRESS :: List.replicate v.RGB_COUNT value)]⟩ := by
  unfold set_all_brightness
  rw [if_neg (by omega)]
  exact hlWrite_short _ _ _ (by simp; omega)

theorem configureOp_eq (a : Nat) (config : Config) (r : Nat) :
    configureOp a config r =
      .ok [.writeRead a [DEVICE_CONFIG_1_ADDRESS] 1,
           .write a [DEVICE_CONFIG_1_ADDRESS, configureWritten config r]] := by
  simp [configureOp, read_register,
    write_register_short a DEVICE_CONFIG_1_ADDRESS [configureWritten config r] (by simp)]

theorem testBit_255 (i : Nat) (hi : i < 8) : Nat.testBit 255 i = true := by
  rw [show (255 : Nat) = 2 ^ 8 - 1 by norm_num, Nat.testBit_two_pow_sub_one]
  simpa using hi

theorem setBit8_testBit_same (b i : Nat) (val : Bool) (hi : i < 8) :
    (setBit8 b i val).testBit i = val := by
  unfold setBit8
  cases val with
  | true => simp [Nat.testBit_lor, Nat.testBit_two_pow_self]
  | false =>
    simp [Nat.testBit_land, Nat.testBit_xor, Nat.testBit_two_pow_self,
      testBit_255 i hi]

theorem setBit8_testBit_other (b i j : Nat) (val : Bool) (hj : j < 8) (hij : j ≠ i) :
    (setBit8 b i val).testBit j = b.testBit j := by
  unfold setBit8
  cases val with
  | true => simp [Nat.testBit_lor, Nat.testBit_two_pow_of_ne hij.symm]
  | false =>
    simp [Nat.testBit_land, Nat.testBit_xor, testBit_255 j hj,
      Nat.testBit_two_pow_of_ne hij.symm]

theorem setBit8_lt (b i : Nat) (val : Bool) (hb : b < 256) (hi : i < 8) :
    setBit8 b i val < 256 := by
  unfold setBit8
  cases val with
  | true =>
    have h2 : (2 : Nat) ^ i < 2 ^ 8 := Nat.pow_lt_pow_right (by omega) hi
    have h256 : (256 : Nat) = 2 ^ 8 := by norm_num
    rw [h256] at hb ⊢
    exact Nat.or_lt_two_pow hb h2
  | false =>
    have hle : b &&& ((2 ^ 8 - 1) ^^^ 2 ^ i) ≤ b := Nat.and_le_left
    simp only [Bool.false_eq_true, if_false]
    omega

theorem configureWritten_lt (config : Config) (r : Nat) (hr : r < 256) :
    configureWritten config r < 256 := by
  unfold configureWritten
  exact setBit8_lt _ _ _
    (setBit8_lt _ _ _
      (setBit8_lt _ _ _
        (setBit8_lt _ _ _ hr (by omega)) (by omega)) (by omega)) (by omega)

theorem configureWritten_testBit (config : Config) (r : Nat) :
    ((configureWritten config r).testBit 5 = config.log_scale)
    ∧ ((configureWritten config r).testBit 4 = config.power_save)
    ∧ ((configureWritten config r).testBit 2 = config.pwm_dithering)
    ∧ ((configureWritten config r).testBit 1 = maxCurrentBit config.max_current)
    ∧ (∀ j, j < 8 → j ≠ 5 → j ≠ 4 → j ≠ 2 → j ≠ 1 →
        (configureWritten config r).testBit j = r.testBit j) := by
  unfold configureWritten
  refine ⟨?_, ?_, ?_, ?_, ?_⟩
  · rw [setBit8_testBit_other _ _ _ _ (by omega) (by omega),
      setBit8_testBit_other _ _ _ _ (by omega) (by omega),
      setBit8_testBit_other _ _ _ _ (by omega) (by omega),
      setBit8_testBit_same _ _ _ (by omega)]
  · rw [setBit8_testBit_other _ _ _ _ (by omega) (by omega),
      setBit8_testBit_same _ _ _ (by omega)]
  · rw [setBit8_testBit_same _ _ _ (by omega)]
  · rw [setBit8_testBit_other _ _ _ _ (by omega) (by omega),
      setBit8_testBit_other _ _ _ _ (by omega) (by omega),
      setBit8_testBit_same _ _ _ (by omega)]
  · intro j hj h5 h4 h2 h1
    rw [setBit8_testBit_other _ _ _ _ hj h2,
      setBit8_testBit_other _ _ _ _ hj h4,
      setBit8_testBit_other _ _ _ _ hj h1,
      setBit8_testBit_other _ _ _ _ hj h5]

/-! ## Claim theorems -/

/-- C1 counterexample: the claim's concrete constants are refuted by the
code. For Model-30 (`LP5030`) the second strap selector resolves to
`0b01100010` (0x62), not the claimed `0b0110010` (0x32); the variant's base
constant is `0b01100000`, not the claimed `0b0110000`, and its broadcast
constant is `0b00111000`, not the claimed `0b0011100`. -/
theorem lp5030_spec_table_constants_refuted :
    resolveAddress LP5030 Address.Address1 ≠ 0b0110010
    ∧ LP5030.I2C_ADDRESS_BASE ≠ 0b0110000
    ∧ LP5030.I2C_ADDRESS_BROADCAST ≠ 0b0011100 := by
  refine ⟨by decide, by decide, by decide⟩

/-- C1 (amended): for every variant and selector the resolved bus address is
the variant's base constant or-ed with `0b000`/`0b010`/`0b100`/`0b110` for the
four strap selectors, and the broadcast constant for `Broadcast`; the base
and broadcast constants are one bit wider than the spec table lists: bases
`0b01100000` (Models 9/12/30/36) and `0b01010000` (Models 18/24), broadcasts
`0b00111000` and `0b01111000` respectively, so Model-30 with the second strap
selector resolves to `0b01100010`. -/
theorem address_resolution_amended :
    (∀ v : Variant,
        resolveAddress v .Address0 = v.I2C_ADDRESS_BASE
      ∧ resolveAddress v .Address1 = (v.I2C_ADDRESS_BASE ||| 0b010)
      ∧ resolveAddress v .Address2 = (v.I2C_ADDRESS_BASE ||| 0b100)
      ∧ resolveAddress v .Address3 = (v.I2C_ADDRESS_BASE ||| 0b110)
      ∧ resolveAddress v .Broadcast = v.I2C_ADDRESS_BROADCAST)
    ∧ resolveAddress LP5030 .Address1 = 0b01100010
    ∧ LP5009.I2C_ADDRESS_BASE = 0b01100000
    ∧ LP5009.I2C_ADDRESS_BROADCAST = 0b00111000
    ∧ LP5012.I2C_ADDRESS_BASE = 0b01100000
    ∧ LP5012.I2C_ADDRESS_BROADCAST = 0b00111000
    ∧ LP5018.I2C_ADDRESS_BASE = 0b01010000
    ∧ LP5018.I2C_ADDRESS_BROADCAST = 0b01111000
    ∧ LP5024.I2C_ADDRESS_BASE = 0b01010000
    ∧ LP5024.I2C_ADDRESS_BROADCAST = 0b01111000
    ∧ LP5030.I2C_ADDRESS_BASE = 0b01100000
    ∧ LP5030.I2C_ADDRESS_BROADCAST = 0b00111000
    ∧ LP5036.I2C_ADDRESS_BASE = 0b01100000
    ∧ LP5036.I2C_ADDRESS_BROADCAST = 0b00111000 :=
  ⟨fun _ => ⟨rfl, rfl, rfl, rfl, rfl⟩, by decide, rfl, rfl, rfl, rfl, rfl, rfl,
    rfl, rfl, rfl, rfl, rfl, rfl⟩

/-- C2: for every variant, `set_channel(i, value)` succeeds exactly when
`i ≤ LED_COUNT` (the inclusive boundary, one past the last zero-based index)
and returns the index error exactly when `LED_COUNT < i`; the same inclusive
boundary against `RGB_COUNT` governs `set_rgb` and `set_rgb_brightness`. On
Model-30 (`RGB_COUNT = 10`), `set_rgb_brightness(9, _)` and
`set_channel(22, _)` succeed. -/
theorem index_boundary_inclusive :
    (∀ (v : Variant) (a i value : Nat),
        ((set_channel v a i value).status = .indexError ↔ v.LED_COUNT < i)
      ∧ ((set_channel v a i value).status = .ok ↔ i ≤ v.LED_COUNT))
    ∧ (∀ (v : Variant) (a i : Nat) (c : Rgb),
        ((set_rgb v a i c).status = .indexError ↔ v.RGB_COUNT < i)
      ∧ ((set_rgb v a i c).status = .ok ↔ i ≤ v.RGB_COUNT))
    ∧ (∀ (v : Variant) (a i value : Nat),
        ((set_rgb_brightness v a i value).status = .indexError ↔ v.RGB_COUNT < i)
      ∧ ((set_rgb_brightness v a i value).status = .ok ↔ i ≤ v.RGB_COUNT))
    ∧ (∀ a value, (set_rgb_brightness LP5030 a 9 value).status = .ok)
    ∧ (∀ a value, (set_channel LP5030 a 22 value).status = .ok) := by
  refine ⟨fun v a i value => ?_, fun v a i c => ?_, fun v a i value => ?_,
    fun a value => ?_, fun a value => ?_⟩
  · by_cases h : v.LED_COUNT < i
    · rw [set_channel_oob v a i value h]
      simp [h]
    · rw [set_channel_ok v a i value (by omega)]
      simp; omega
  · by_cases h : v.RGB_COUNT < i
    · rw [set_rgb_oob v a i c h]
      simp [h]
    · rw [set_rgb_ok v a i c (by omega)]
      simp; omega
  · by_cases h : v.RGB_COUNT < i
    · rw [set_rgb_brightness_oob v a i value h]
      simp [h]
    · rw [set_rgb_brightness_ok v a i value (by omega)]
      simp; omega
  · rw [set_rgb_brightness_ok LP5030 a 9 value (by decide)]
  · rw [set_channel_ok LP5030 a 22 value (by decide)]

/-- C3: the adapter's `write_register` fails with `BufferTooSmall` exactly
when the payload length exceeds `MAX_WRITE_SIZE - 1` (12 bytes of the 13-byte
buffer), and no public driver operation on any of the six variants ever
produces that error: the indexing operations never hit the `unreachable!()`
conversion arm (modelled as `panicked`), and `enable`/`disable`/`configure`
never return `BufferTooSmall`. -/
theorem buffer_bound_unreachable :
    (∀ (busAddr regAddr : Nat) (data : List Nat),
        write_register busAddr regAddr data = .error .BufferTooSmall
          ↔ MAX_WRITE_SIZE - 1 < data.length)
    ∧ (∀ v, v ∈ variants → ∀ (a i value r : Nat) (c : Rgb) (config : Config),
          (set_channel v a i value).status ≠ .panicked
        ∧ (set_rgb v a i c).status ≠ .panicked
        ∧ (set_rgb_brightness v a i value).status ≠ .panicked
        ∧ (set_all_brightness v a value).status ≠ .panicked
        ∧ enableOp a ≠ .error .BufferTooSmall
        ∧ disableOp a ≠ .error .BufferTooSmall
        ∧ configureOp a config r ≠ .error .BufferTooSmall) := by
  constructor
  · intro busAddr regAddr data
    constructor
    · intro h
      by_contra hlen
      rw [write_register_short busAddr regAddr data (by simp [MAX_WRITE_SIZE] at hlen; omega)] at h
      exact Except.noConfusion h
    · intro h
      exact write_register_long busAddr regAddr data (by simp [MAX_WRITE_SIZE] at h; omega)
  · intro v hv a i value r c config
    have hrgb : v.RGB_COUNT ≤ 12 := by fin_cases hv <;> decide
    refine ⟨?_, ?_, ?_, ?_, ?_, ?_, ?_⟩
    · by_cases h : v.LED_COUNT < i
      · rw [set_channel_oob v a i value h]; simp
      · rw [set_channel_ok v a i value (by omega)]; simp
    · by_cases h : v.RGB_COUNT < i
      · rw [set_rgb_oob v a i c h]; simp
      · rw [set_rgb_ok v a i c (by omega)]; simp
    · by_cases h : v.RGB_COUNT < i
      · rw [set_rgb_brightness_oob v a i value h]; simp
      · rw [set_rgb_brightness_ok v a i value (by omega)]; simp
    · rw [set_all_brightness_eq v a value hrgb]; simp
    · rw [show enableOp a = .ok [.write a [0x00, 0x40]] from
        write_register_short a DEVICE_CONFIG_0_ADDRESS [deviceConfig0Byte true] (by simp)]
      exact Except.noConfusion
    · rw [show disableOp a = .ok [.write a [0x00, 0x00]] from
        write_register_short a DEVICE_CONFIG_0_ADDRESS [deviceConfig0Byte false] (by simp)]
      exact Except.noConfusion
    · rw [configureOp_eq a config r]
      exact Except.noConfusion

/-- C3 witness: the bound side of the equivalence at a 13-byte payload, and
the unreachability side instantiated on Model-30 with concrete arguments. -/
theorem buffer_bound_unreachable_witness :
    MAX_WRITE_SIZE - 1 < (List.replicate 13 (0 : Nat)).length
    ∧ write_register 0 0 (List.replicate 13 0) = .error .BufferTooSmall
    ∧ LP5030 ∈ variants
    ∧ (set_all_brightness LP5030 0x62 0x55).status ≠ .panicked :=
  ⟨by decide,
    (buffer_bound_unreachable.1 0 0 (List.replicate 13 0)).2 (by decide),
    by decide,
    (buffer_bound_unreachable.2 LP5030 (by decide) 0x62 9 0x55 0x3C ⟨1, 2, 3⟩
      ⟨true, true, false, .Current25MA5⟩).2.2.2.1⟩

/-- C4: `configure` is a read-modify-write of control register 1 (`0x01`):
it issues a read of `0x01` followed by exactly one write of `0x01` whose
value is the byte just read with only the log-scale (bit 5), power-save
(bit 4), pwm-dithering (bit 2) and max-current (bit 1) fields set to the
configuration's values and every other bit unchanged; in particular, reading
`0x3C` and requesting dithering off with the other fields read-equivalent
writes `0x38`, i.e. `0x3C` with the dithering bit cleared. -/
theorem configure_read_modify_write :
    (∀ (a : Nat) (config : Config) (r : Nat), r < 256 →
        configureOp a config r =
          .ok [.writeRead a [DEVICE_CONFIG_1_ADDRESS] 1,
               .write a [DEVICE_CONFIG_1_ADDRESS, configureWritten config r]]
      ∧ configureWritten config r < 256
      ∧ (configureWritten config r).testBit 5 = config.log_scale
      ∧ (configureWritten config r).testBit 4 = config.power_save
      ∧ (configureWritten config r).testBit 2 = config.pwm_dithering
      ∧ (configureWritten config r).testBit 1 = maxCurrentBit config.max_current
      ∧ (∀ j, j ≠ 5 → j ≠ 4 → j ≠ 2 → j ≠ 1 →
          (configureWritten config r).testBit j = r.testBit j))
    ∧ configureWritten ⟨true, true, false, .Current25MA5⟩ 0x3C = 0x38
    ∧ (0x38 : Nat) = 0x3C &&& ((2 ^ 8 - 1) ^^^ 2 ^ 2)
    ∧ configureOp 0x62 ⟨true, true, false, .Current25MA5⟩ 0x3C =
        .ok [.writeRead 0x62 [0x01] 1, .write 0x62 [0x01, 0x38]] := by
  refine ⟨fun a config r hr => ?_, by decide, by decide, ?_⟩
  · obtain ⟨h5, h4, h2, h1, hother⟩ := configureWritten_testBit config r
    have hlt := configureWritten_lt config r hr
    refine ⟨configureOp_eq a config r, hlt, h5, h4, h2, h1, ?_⟩
    intro j hj5 hj4 hj2 hj1
    by_cases hj : j < 8
    · exact hother j hj hj5 hj4 hj2 hj1
    · have hhi : (2 : Nat) ^ 8 ≤ 2 ^ j := Nat.pow_le_pow_right (by omega) (by omega)
      rw [Nat.testBit_lt_two_pow (by omega), Nat.testBit_lt_two_pow (by omega)]
  · rw [configureOp_eq 0x62 ⟨true, true, false, .Current25MA5⟩ 0x3C]
    rfl

/-- C4 witness: instantiating the read-modify-write theorem at the bus
address `0x62`, the read value `0x3C` and the configuration requesting
dithering off with the other fields read-equivalent. -/
theorem configure_read_modify_write_witness :
    (0x3C : Nat) < 256
    ∧ configureOp 0x62 ⟨true, true, false, .Current25MA5⟩ 0x3C =
        .ok [.writeRead 0x62 [DEVICE_CONFIG_1_ADDRESS] 1,
             .write 0x62 [DEVICE_CONFIG_1_ADDRESS,
               configureWritten ⟨true, true, false, .Current25MA5⟩ 0x3C]] :=
  ⟨by decide,
    (configure_read_modify_write.1 0x62 ⟨true, true, false, .Current25MA5⟩ 0x3C
      (by decide)).1⟩

/-- C5: the driver's state machine has exactly the two states Standby and
Normal, with Standby the state of a freshly constructed handle; `enable` is
offered only in Standby and moves to Normal, `disable` only in Normal and
moves to Standby, and an operation is undefined in a state exactly when that
state's impl block does not offer it; `configure` and the four indexing
operations are offered in both states and leave the state unchanged. A
transition consumes the prior handle, and on a failed transition the error
value carries no handle at all. -/
theorem typestate_machine :
    (∀ s : DriverState, s = .Standby ∨ s = .Normal)
    ∧ nextState .Standby .enable = some .Normal
    ∧ nextState .Standby .disable = none
    ∧ nextState .Normal .disable = some .Standby
    ∧ nextState .Normal .enable = none
    ∧ opAllowed .Standby .enable = true
    ∧ opAllowed .Normal .enable = false
    ∧ opAllowed .Normal .disable = true
    ∧ opAllowed .Standby .disable = false
    ∧ (∀ s, opAllowed s .configure = true
      ∧ opAllowed s .setChannel = true
      ∧ opAllowed s .setRgb = true
      ∧ opAllowed s .setRgbBrightness = true
      ∧ opAllowed s .setAllBrightness = true
      ∧ nextState s .configure = some s
      ∧ nextState s .setChannel = some s
      ∧ nextState s .setRgb = some s
      ∧ nextState s .setRgbBrightness = some s
      ∧ nextState s .setAllBrightness = some s)
    ∧ (∀ s op, nextState s op = none ↔ opAllowed s op = false)
    ∧ (∀ (v : Variant) (addr : Address),
        Driver.new v addr = ⟨resolveAddress v addr, v⟩)
    ∧ (∀ d : Driver .Standby,
        Driver.enable d true = .ok ⟨d.busAddr, d.variant⟩
      ∧ Driver.enable d false = .error .Interface)
    ∧ (∀ d : Driver .Normal,
        Driver.disable d true = .ok ⟨d.busAddr, d.variant⟩
      ∧ Driver.disable d false = .error .Interface) := by
  refine ⟨fun s => by cases s <;> simp, rfl, rfl, rfl, rfl, rfl, rfl, rfl, rfl,
    fun s => by cases s <;> exact ⟨rfl, rfl, rfl, rfl, rfl, rfl, rfl, rfl, rfl, rfl⟩,
    fun s op => by cases s <;> cases op <;> simp [nextState, opAllowed],
    fun v addr => rfl,
    fun d => ⟨rfl, rfl⟩,
    fun d => ⟨rfl, rfl⟩⟩

/-- C6: `enable()` issues exactly one bus write of the bytes `[0x00, 0x40]`
(chip-enable set, written to control register 0) and `disable()` exactly one
bus write of `[0x00, 0x00]`; the transaction sequence of enable-then-disable
differs in order from disable-then-enable. (The control-register byte layout
is modelled from the spec, the generated register map's `ll.yaml` manifest
not being present under `src/`.) -/
theorem enable_disable_writes :
    (∀ a, enableOp a = .ok [.write a [0x00, 0x40]])
    ∧ (∀ a, disableOp a = .ok [.write a [0x00, 0x00]])
    ∧ (∀ (a : Nat) (tr1 tr2 : List Transaction),
        enableOp a = .ok tr1 → disableOp a = .ok tr2 → tr1 ++ tr2 ≠ tr2 ++ tr1) := by
  have he : ∀ a, enableOp a = .ok [.write a [0x00, 0x40]] := fun a =>
    write_register_short a DEVICE_CONFIG_0_ADDRESS [deviceConfig0Byte true] (by simp)
  have hd : ∀ a, disableOp a = .ok [.write a [0x00, 0x00]] := fun a =>
    write_register_short a DEVICE_CONFIG_0_ADDRESS [deviceConfig0Byte false] (by simp)
  refine ⟨he, hd, fun a tr1 tr2 h1 h2 hEq => ?_⟩
  rw [he a] at h1
  rw [hd a] at h2
  cases h1
  cases h2
  simp at hEq

/-- C6 witness: the enable and disable writes at bus address `0x62`, and the
inequality of the two orders of their one-transaction traces. -/
theorem enable_disable_writes_witness :
    enableOp 0x62 = .ok [.write 0x62 [0x00, 0x40]]
    ∧ disableOp 0x62 = .ok [.write 0x62 [0x00, 0x00]]
    ∧ [Transaction.write 0x62 [0x00, 0x40]] ++ [Transaction.write 0x62 [0x00, 0x00]]
        ≠ [Transaction.write 0x62 [0x00, 0x00]] ++ [Transaction.write 0x62 [0x00, 0x40]] :=
  ⟨enable_disable_writes.1 0x62, enable_disable_writes.2.1 0x62,
    enable_disable_writes.2.2 0x62 _ _ (enable_disable_writes.1 0x62)
      (enable_disable_writes.2.1 0x62)⟩

/-- C7: for every in-bounds RGB index, `set_rgb(i, color)` issues exactly one
bus transaction of the three data bytes red, green, blue in that order at
register address `OUT_START_ADDRESS + i*3`; writing `(0x01,0x02,0x03)` to RGB
index 9 on Model-30 is a single 3-byte write starting at register `0x2F`,
which is `OUT_START_ADDRESS + 27`. -/
theorem set_rgb_framing :
    (∀ (v : Variant) (a i : Nat) (c : Rgb), i ≤ v.RGB_COUNT →
        set_rgb v a i c =
          ⟨.ok, [.write a ((v.OUT_START_ADDRESS + i * 3) :: [c.red, c.green, c.blue])]⟩)
    ∧ LP5030.OUT_START_ADDRESS + 9 * 3 = 0x2F
    ∧ set_rgb LP5030 0x62 9 ⟨0x01, 0x02, 0x03⟩ =
        ⟨.ok, [.write 0x62 [0x2F, 0x01, 0x02, 0x03]]⟩ := by
  refine ⟨fun v a i c h => set_rgb_ok v a i c h, by decide, by decide⟩

/-- C7 witness: the general framing statement instantiated on Model-30 at RGB
index 9. -/
theorem set_rgb_framing_witness :
    9 ≤ LP5030.RGB_COUNT
    ∧ set_rgb LP5030 0x62 9 ⟨0x01, 0x02, 0x03⟩ =
        ⟨.ok, [.write 0x62 ((LP5030.OUT_START_ADDRESS + 9 * 3) :: [0x01, 0x02, 0x03])]⟩ :=
  ⟨by decide, set_rgb_framing.1 LP5030 0x62 9 ⟨0x01, 0x02, 0x03⟩ (by decide)⟩

/-- C8: on each of the six variants, `set_all_brightness(value)` issues
exactly one bus transaction writing exactly `RGB_COUNT` copies of the value
starting at register `LED_START_ADDRESS`; for Model-30 that is 10 copies
starting at `0x08`. -/
theorem set_all_brightness_frames :
    (∀ v, v ∈ variants → ∀ (a value : Nat),
        set_all_brightness v a value =
          ⟨.ok, [.write a (v.LED_START_ADDRESS :: List.replicate v.RGB_COUNT value)]⟩)
    ∧ (∀ a value, set_all_brightness LP5030 a value =
        ⟨.ok, [.write a (0x08 :: List.replicate 10 value)]⟩) := by
  constructor
  · intro v hv a value
    exact set_all_brightness_eq v a value (by fin_cases hv <;> decide)
  · intro a value
    exact set_all_brightness_eq LP5030 a value (by decide)

/-- C8 witness: the per-variant statement instantiated on Model-30. -/
theorem set_all_brightness_frames_witness :
    LP5030 ∈ variants
    ∧ set_all_brightness LP5030 0x62 0x55 =
        ⟨.ok, [.write 0x62 (LP5030.LED_START_ADDRESS ::
            List.replicate LP5030.RGB_COUNT 0x55)]⟩ :=
  ⟨by decide, set_all_brightness_frames.1 LP5030 (by decide) 0x62 0x55⟩

/-- C9: whenever an indexing operation rejects its index, the rejection
happens before any bus access: the call returns the index error having issued
an empty transaction list, leaving the device untouched. -/
theorem index_error_before_bus :
    ∀ (v : Variant) (a i value : Nat) (c : Rgb),
      (v.LED_COUNT < i → set_channel v a i value = ⟨.indexError, []⟩)
      ∧ (v.RGB_COUNT < i → set_rgb v a i c = ⟨.indexError, []⟩)
      ∧ (v.RGB_COUNT < i → set_rgb_brightness v a i value = ⟨.indexError, []⟩) :=
  fun v a i value c =>
    ⟨set_channel_oob v a i value, set_rgb_oob v a i c,
      set_rgb_brightness_oob v a i value⟩

/-- C9 witness: Model-30 at index 31, which exceeds both the channel count 30
and the RGB count 10, so all three operations reject it with an empty trace. -/
theorem index_error_before_bus_witness :
    LP5030.LED_COUNT < 31 ∧ LP5030.RGB_COUNT < 31
    ∧ set_channel LP5030 0x62 31 0 = ⟨.indexError, []⟩
    ∧ set_rgb LP5030 0x62 31 ⟨1, 2, 3⟩ = ⟨.indexError, []⟩
    ∧ set_rgb_brightness LP5030 0x62 31 0 = ⟨.indexError, []⟩ :=
  ⟨by decide, by decide,
    (index_error_before_bus LP5030 0x62 31 0 ⟨1, 2, 3⟩).1 (by decide),
    (index_error_before_bus LP5030 0x62 31 0 ⟨1, 2, 3⟩).2.1 (by decide),
    (index_error_before_bus LP5030 0x62 31 0 ⟨1, 2, 3⟩).2.2 (by decide)⟩

/-- C10: the buffer-level read of the transport adapter panics
(`unimplemented!()`) for every input, while the register-level read used by
`configure` is a single combined write-then-read transaction of the one
address byte followed by the requested number of bytes. -/
theorem buffer_read_unimplemented :
    (∀ a r l, bufferRead a r l = .panicked)
    ∧ (∀ (busAddr regAddr readLen : Nat),
        read_register busAddr regAddr readLen =
          [.writeRead busAddr [regAddr] readLen]) :=
  ⟨fun _ _ _ => rfl, fun _ _ _ => rfl⟩

end LP50xx
